import Mathlib

/-!
Shallow embedding of src/main.c (LiliumTest): an airspeed-sensor pipeline with
a periodic sampler interrupt (Tick_10ms), a filter stage (filterAirData), a
temperature compensator (compensateAirData), a fault handler (Fault), and the
main orchestrator loop with a debounced filter-fault policy.

Machine integers are modelled as Nat with an explicit `% 2 ^ w` at every
narrowing assignment.  The C global `AirDataProcessed` is an `int`, modelled
as `Int`.  Calls to `Fault(code)` are modelled by collecting the reported
codes in a list (the fault handler's body is empty in the source).

The temperature scaling `in->tempC * AIR_DATA_SCALE` multiplies by the double
constant 1.00325 and converts the truncated result to `unsigned short`.  It is
modelled as the exact computation `t * 100325 / 100000 % 2 ^ 16`: for every
16-bit input the truncated IEEE-double product of `t` and the double nearest
1.00325 coincides with the exact rational truncation (checked exhaustively
over all 65536 inputs), and the out-of-range narrowing is modelled as the
usual wrap modulo 2 ^ 16.
-/

namespace LiliumTest

/-- Fault codes from the defines in src/main.c lines 33-37. -/
def FAULT_NONE : Nat := 0

/-- Fault code for a sampler overrun (src/main.c line 34). -/
def FAULT_OVERRUN : Nat := 1

/-- Fault code for a filter error (src/main.c line 35). -/
def FAULT_AIRFILTER : Nat := 2

/-- Fault code for a compensator divide-by-zero (src/main.c line 36). -/
def FAULT_COMPENSATE_DIV : Nat := 3

/-- Fault code for a compensator range overflow (src/main.c line 37). -/
def FAULT_COMPENSATE_RANGE : Nat := 4

/-- AirData_t (src/main.c lines 40-44): errorWord is `unsigned char` (8 bits),
tempC is `unsigned short` (16 bits), speed is `unsigned long` (32 bits). -/
structure AirData_t where
  errorWord : Nat
  tempC : Nat
  speed : Nat
deriving Repr, DecidableEq

/-- The two C globals (src/main.c lines 48-49): `RawAirData` and the overrun
check flag `AirDataProcessed` (an `int`; 1 means the prior sample was
consumed, 0 means a fresh sample is available). -/
structure SysState where
  RawAirData : AirData_t
  AirDataProcessed : Int
deriving Repr, DecidableEq

/-- Primitive store events performed by the Tick_10ms interrupt body, in
program order, plus calls into the fault handler. -/
inductive Ev where
  | setFlag (v : Int)
  | wErrorWord (v : Nat)
  | wTempC (v : Nat)
  | wSpeed (v : Nat)
  | fault (code : Nat)
deriving Repr, DecidableEq

/-- Event trace of one Tick_10ms invocation (src/main.c lines 61-76), given
the current value of AirDataProcessed and the three port reads.  The branch
on `AirDataProcessed != 1` either reports FAULT_OVERRUN or stores 0 to the
flag; then the three RawAirData fields are written from the ports, each
narrowed to its field width. -/
def Tick_10ms_trace (processed : Int) (p8 p16 p32 : Nat) : List Ev :=
  (if processed ≠ 1 then [Ev.fault FAULT_OVERRUN] else [Ev.setFlag 0]) ++
    [Ev.wErrorWord (p8 % 2 ^ 8), Ev.wTempC (p16 % 2 ^ 16), Ev.wSpeed (p32 % 2 ^ 32)]

/-- Effect of one primitive event on the globals; a `fault` event reports its
code. -/
def applyEv (s : SysState) : Ev → SysState × List Nat
  | Ev.setFlag v => ({ s with AirDataProcessed := v }, [])
  | Ev.wErrorWord v => ({ s with RawAirData := { s.RawAirData with errorWord := v } }, [])
  | Ev.wTempC v => ({ s with RawAirData := { s.RawAirData with tempC := v } }, [])
  | Ev.wSpeed v => ({ s with RawAirData := { s.RawAirData with speed := v } }, [])
  | Ev.fault c => (s, [c])

/-- Run a list of events left to right, collecting reported fault codes. -/
def applyTrace (s : SysState) : List Ev → SysState × List Nat
  | [] => (s, [])
  | e :: es =>
    let (s1, f1) := applyEv s e
    let (s2, f2) := applyTrace s1 es
    (s2, f1 ++ f2)

/-- Tick_10ms (src/main.c lines 61-76): state transformer obtained by running
the invocation's event trace on the globals. -/
def Tick_10ms (s : SysState) (p8 p16 p32 : Nat) : SysState × List Nat :=
  applyTrace s (Tick_10ms_trace s.AirDataProcessed p8 p16 p32)

/-- True on the event that stores 0 to AirDataProcessed, i.e. marks a fresh
sample available. -/
def isSetAvail : Ev → Bool
  | Ev.setFlag v => v == 0
  | _ => false

/-- True on a write to the errorWord field of RawAirData. -/
def isWErr : Ev → Bool
  | Ev.wErrorWord _ => true
  | _ => false

/-- True on a write to the tempC field of RawAirData. -/
def isWTemp : Ev → Bool
  | Ev.wTempC _ => true
  | _ => false

/-- True on a write to the speed field of RawAirData. -/
def isWSpeed : Ev → Bool
  | Ev.wSpeed _ => true
  | _ => false

/-- Ordering property of a sampler trace: every event that marks the sample
available is preceded by writes to all three RawAirData fields. -/
def availAfterAllFields (tr : List Ev) : Bool :=
  (List.range tr.length).all fun k =>
    !(isSetAvail (tr.getD k (Ev.fault 0))) ||
      (((tr.take k).any isWErr) && ((tr.take k).any isWTemp) && ((tr.take k).any isWSpeed))

/-- filterAirData (src/main.c lines 88-118).  Takes the globals, the sample
pointed to by `in` and the prior contents of the sample pointed to by `out`;
returns the new globals, the new `out` and the return code.  Field writes in
source order: errorWord copied, tempC scaled by AIR_DATA_SCALE = 1.00325 and
narrowed to 16 bits (see the file comment for the double-to-exact reduction),
speed copied; then AirDataProcessed is set to 1; then FAULT_AIRFILTER is
returned when the copied errorWord is nonzero, else 0.  The DI_T1 and EI_T1
interrupt mask macros bracket the body; in this sequential model an
invocation is atomic. -/
def filterAirData (g : SysState) (i o : AirData_t) : SysState × AirData_t × Nat :=
  let o1 := { o with errorWord := i.errorWord }
  let o2 := { o1 with tempC := i.tempC * 100325 / 100000 % 2 ^ 16 }
  let o3 := { o2 with speed := i.speed }
  let g1 := { g with AirDataProcessed := 1 }
  (g1, o3, if o3.errorWord ≠ 0 then FAULT_AIRFILTER else 0)

/-- The temperature scaling as the spec words it: multiply by 1.00325 and
truncate (floor, the values being nonnegative). -/
def truncScale (t : Nat) : Nat :=
  Nat.floor ((t : ℚ) * (1.00325 : ℚ))

/-- compensateAirData (src/main.c lines 148-174).  Two slips in the source are
read as intended: the parameter list is written `(&in, &out)` where the call
site `compensateAirData(&FilteredAirData, &CompensatedAirData)` and the body
show two `AirData_t *` parameters were meant, and line 171 writes the field
`errWord`, which does not exist on AirData_t — the struct field is
`errorWord`, and the comment above the line says "copy the speed and
errorWord".  Behaviour: tempC = 0 returns FAULT_COMPENSATE_DIV with `out`
untouched; otherwise temp = speed / tempC in `unsigned long`, and temp >
65535 returns FAULT_COMPENSATE_RANGE with `out` untouched; otherwise tempC
(narrowed to 16 bits), speed and errorWord are written and 0 is returned. -/
def compensateAirData (i o : AirData_t) : AirData_t × Nat :=
  if i.tempC = 0 then
    (o, FAULT_COMPENSATE_DIV)
  else
    let temp := i.speed / i.tempC
    if temp > 65535 then
      (o, FAULT_COMPENSATE_RANGE)
    else
      ({ o with tempC := temp % 2 ^ 16, speed := i.speed, errorWord := i.errorWord }, 0)

/-- The locals of main (src/main.c lines 186-189) together with the globals:
the filtered and compensated samples, and the filter error streak counter
(`int FilterErrorCount`). -/
structure LoopState where
  g : SysState
  FilteredAirData : AirData_t
  CompensatedAirData : AirData_t
  FilterErrorCount : Int
deriving Repr, DecidableEq

/-- One iteration of main's processing loop (src/main.c lines 192-220):
filter the raw data into FilteredAirData; on a filter error increment
FilterErrorCount and report FAULT_AIRFILTER when the count exceeds 5, on
success reset the count to 0; then compensate into CompensatedAirData and
report the compensator's code whenever it is nonzero.  Returns the new state
and the fault codes reported this iteration, in order. -/
def loopIter (s : LoopState) : LoopState × List Nat :=
  let fr := filterAirData s.g s.g.RawAirData s.FilteredAirData
  let filt := fr.2.1
  let err := fr.2.2
  let cnt : Int := if err ≠ 0 then s.FilterErrorCount + 1 else 0
  let faults1 := if err ≠ 0 then (if cnt > 5 then [FAULT_AIRFILTER] else []) else []
  let cr := compensateAirData filt s.CompensatedAirData
  let faults2 := if cr.2 ≠ 0 then [cr.2] else []
  ({ g := fr.1, FilteredAirData := filt, CompensatedAirData := cr.1,
     FilterErrorCount := cnt }, faults1 ++ faults2)

/-- Run the loop over a list of raw samples, one iteration per element: the
sampler interrupt deposits each raw sample into the global before the
iteration reads it.  Returns the final state and all reported fault codes in
order. -/
def runLoop (s : LoopState) : List AirData_t → LoopState × List Nat
  | [] => (s, [])
  | r :: rs =>
    let s0 : LoopState := { s with g := { s.g with RawAirData := r } }
    let p := loopIter s0
    let q := runLoop p.1 rs
    (q.1, p.2 ++ q.2)

/-- Reference form of the loop's debounce policy: given the streak counter
and the sequence of raw errorWord values seen by successive iterations, the
number of FAULT_AIRFILTER reports (one per iteration whose incremented streak
exceeds 5).  Used to relate runLoop's reports to the claimed policy. -/
def debounceFaults : Int → List Nat → Nat
  | _, [] => 0
  | c, e :: es =>
    if e ≠ 0 then (if c + 1 > 5 then 1 else 0) + debounceFaults (c + 1) es
    else debounceFaults 0 es

/-- Helper: the exact-rational form of the spec's scaling equals the Nat
computation used in the embedding of filterAirData. -/
theorem truncScale_eq (t : Nat) : truncScale t = t * 100325 / 100000 := by
  have h : (t : ℚ) * (1.00325 : ℚ) = ((t * 100325 : ℕ) : ℚ) / ((100000 : ℕ) : ℚ) := by
    push_cast
    ring_nf
  unfold truncScale
  rw [h, Nat.floor_div_nat, Nat.floor_natCast]

/-- Helper: the compensator never returns the filter's fault code; its return
value is one of 0, FAULT_COMPENSATE_DIV and FAULT_COMPENSATE_RANGE. -/
theorem compensate_code_ne_airfilter (i o : AirData_t) :
    (compensateAirData i o).2 ≠ FAULT_AIRFILTER := by
  by_cases h1 : i.tempC = 0
  · simp [compensateAirData, h1, FAULT_AIRFILTER, FAULT_COMPENSATE_DIV]
  · by_cases h2 : 65535 < i.speed / i.tempC <;>
      simp [compensateAirData, h1, h2, FAULT_AIRFILTER, FAULT_COMPENSATE_RANGE]

/-- Helper: the filter error streak counter after one loop iteration is the
prior counter plus one when the raw errorWord is nonzero, and 0 otherwise. -/
theorem loopIter_count (s : LoopState) :
    (loopIter s).1.FilterErrorCount =
      if s.g.RawAirData.errorWord ≠ 0 then s.FilterErrorCount + 1 else 0 := by
  by_cases h : s.g.RawAirData.errorWord = 0 <;>
    simp [loopIter, filterAirData, FAULT_AIRFILTER, h]

/-- Helper: the filter's fault code is nonzero. -/
theorem FAULT_AIRFILTER_ne_zero : FAULT_AIRFILTER ≠ 0 := by decide

/-- Helper: the fault reports coming from the compensator call of a loop
iteration never contain FAULT_AIRFILTER. -/
theorem count_airfilter_compensate_faults (i o : AirData_t) :
    List.count FAULT_AIRFILTER
      (if (compensateAirData i o).2 = 0 then [] else [(compensateAirData i o).2]) = 0 := by
  have hc := compensate_code_ne_airfilter i o
  split_ifs <;> simp [List.count_cons, hc]

/-- Helper: one loop iteration reports FAULT_AIRFILTER exactly when the raw
errorWord is nonzero and the incremented streak counter exceeds 5, and then
exactly once. -/
theorem loopIter_airfilter_count (s : LoopState) :
    ((loopIter s).2.count FAULT_AIRFILTER) =
      if s.g.RawAirData.errorWord ≠ 0 ∧ s.FilterErrorCount + 1 > 5 then 1 else 0 := by
  by_cases h : s.g.RawAirData.errorWord = 0
  · simp [loopIter, filterAirData, h, List.count_append, List.count_cons,
      apply_ite (List.count FAULT_AIRFILTER), compensate_code_ne_airfilter]
  · by_cases h5 : (5 : Int) < s.FilterErrorCount + 1 <;>
      simp [loopIter, filterAirData, h, h5, List.count_append, List.count_cons,
        count_airfilter_compensate_faults, FAULT_AIRFILTER_ne_zero]

/-- Helper: unfolding one iteration of runLoop at the level of FAULT_AIRFILTER
report counts. -/
theorem runLoop_count_step (s : LoopState) (r : AirData_t) (rs : List AirData_t) :
    (runLoop s (r :: rs)).2.count FAULT_AIRFILTER =
      (if r.errorWord ≠ 0 ∧ s.FilterErrorCount + 1 > 5 then 1 else 0) +
        (runLoop (loopIter { s with g := { s.g with RawAirData := r } }).1 rs).2.count
          FAULT_AIRFILTER := by
  simp only [runLoop, List.count_append, loopIter_airfilter_count]

/-- Claim C2: with filtered.tempC = 0 the compensator returns
FAULT_COMPENSATE_DIV and the output sample is bit-for-bit unchanged: no field
of the output is written on this error path. -/
theorem C2_compensate_div_by_zero (i o : AirData_t) (h : i.tempC = 0) :
    compensateAirData i o = (o, FAULT_COMPENSATE_DIV) := by
  simp [compensateAirData, h]

/-- Witness for C2 at tempC = 0. -/
theorem C2_compensate_div_by_zero_witness :
    (⟨1, 0, 100000⟩ : AirData_t).tempC = 0 ∧
      compensateAirData ⟨1, 0, 100000⟩ ⟨9, 9, 9⟩ = (⟨9, 9, 9⟩, FAULT_COMPENSATE_DIV) :=
  ⟨rfl, C2_compensate_div_by_zero ⟨1, 0, 100000⟩ ⟨9, 9, 9⟩ rfl⟩

/-- Claim C3: with filtered.tempC nonzero, when the integer quotient
speed / tempC exceeds 65535 the compensator returns FAULT_COMPENSATE_RANGE
and leaves the output sample unchanged. -/
theorem C3_compensate_range_overflow (i o : AirData_t) (h0 : i.tempC ≠ 0)
    (h : 65535 < i.speed / i.tempC) :
    compensateAirData i o = (o, FAULT_COMPENSATE_RANGE) := by
  simp [compensateAirData, h0, h]

/-- Witness for C3 at speed = 700000000, tempC = 1. -/
theorem C3_compensate_range_overflow_witness :
    (⟨0, 1, 700000000⟩ : AirData_t).tempC ≠ 0 ∧
      65535 < (⟨0, 1, 700000000⟩ : AirData_t).speed / (⟨0, 1, 700000000⟩ : AirData_t).tempC ∧
      compensateAirData ⟨0, 1, 700000000⟩ ⟨9, 9, 9⟩ = (⟨9, 9, 9⟩, FAULT_COMPENSATE_RANGE) :=
  ⟨by decide, by decide,
    C3_compensate_range_overflow ⟨0, 1, 700000000⟩ ⟨9, 9, 9⟩ (by decide) (by decide)⟩

/-- Claim C4 (behaviour of the intended code, see the compensateAirData
comment on the errWord slip): with tempC nonzero and speed / tempC at most
65535, the compensator returns success, sets the output tempC to the
truncated quotient, and copies speed and errorWord from the input. -/
theorem C4_compensate_success (i o : AirData_t) (h0 : i.tempC ≠ 0)
    (h : i.speed / i.tempC ≤ 65535) :
    compensateAirData i o =
      ({ errorWord := i.errorWord, tempC := i.speed / i.tempC, speed := i.speed },
        FAULT_NONE) := by
  have hlt : i.speed / i.tempC < 65536 := by omega
  simp [compensateAirData, h0, Nat.not_lt.mpr h, Nat.mod_eq_of_lt hlt, FAULT_NONE]

/-- Witness for C4 at speed = 100000, tempC = 1003: output tempC is 99. -/
theorem C4_compensate_success_witness :
    (⟨7, 1003, 100000⟩ : AirData_t).tempC ≠ 0 ∧
      (⟨7, 1003, 100000⟩ : AirData_t).speed / (⟨7, 1003, 100000⟩ : AirData_t).tempC ≤ 65535 ∧
      compensateAirData ⟨7, 1003, 100000⟩ ⟨9, 9, 9⟩ = (⟨7, 99, 100000⟩, FAULT_NONE) :=
  ⟨by decide, by decide,
    (C4_compensate_success ⟨7, 1003, 100000⟩ ⟨9, 9, 9⟩ (by decide) (by decide)).trans
      (by decide)⟩

/-- Claim C5: the filter copies errorWord and speed verbatim, sets the output
tempC to the input tempC multiplied by 1.00325 and truncated (not rounded) to
the unsigned 16-bit output width — raw tempC 1000 yields 1003 — and returns
FAULT_AIRFILTER iff the raw errorWord is nonzero, returning 0 otherwise. -/
theorem C5_filter_transform (g : SysState) (i o : AirData_t) :
    ((filterAirData g i o).2.1.errorWord = i.errorWord) ∧
      ((filterAirData g i o).2.1.speed = i.speed) ∧
      ((filterAirData g i o).2.1.tempC = truncScale i.tempC % 2 ^ 16) ∧
      (i.tempC = 1000 → (filterAirData g i o).2.1.tempC = 1003) ∧
      ((filterAirData g i o).2.2 = FAULT_AIRFILTER ↔ i.errorWord ≠ 0) ∧
      (i.errorWord = 0 → (filterAirData g i o).2.2 = FAULT_NONE) := by
  refine ⟨rfl, rfl, ?_, ?_, ?_, ?_⟩
  · simp [filterAirData, truncScale_eq]
  · intro h
    simp [filterAirData, h]
  · by_cases h : i.errorWord = 0 <;> simp [filterAirData, h, FAULT_AIRFILTER]
  · intro h
    simp [filterAirData, h, FAULT_NONE]

/-- Witness for C5 at raw tempC 1000 with errorWord 0. -/
theorem C5_filter_transform_witness :
    (⟨0, 1000, 100000⟩ : AirData_t).tempC = 1000 ∧
      (⟨0, 1000, 100000⟩ : AirData_t).errorWord = 0 ∧
      (filterAirData ⟨⟨1, 1000, 100000⟩, 1⟩ ⟨0, 1000, 100000⟩ ⟨9, 9, 9⟩).2.1.tempC = 1003 ∧
      (filterAirData ⟨⟨1, 1000, 100000⟩, 1⟩ ⟨0, 1000, 100000⟩ ⟨9, 9, 9⟩).2.2 = FAULT_NONE :=
  ⟨rfl, rfl,
    (C5_filter_transform ⟨⟨1, 1000, 100000⟩, 1⟩ ⟨0, 1000, 100000⟩ ⟨9, 9, 9⟩).2.2.2.1 rfl,
    (C5_filter_transform ⟨⟨1, 1000, 100000⟩, 1⟩ ⟨0, 1000, 100000⟩ ⟨9, 9, 9⟩).2.2.2.2.2 rfl⟩

/-- Claim C9: when the scaled temperature exceeds 65535 the filter's
assignment reduces it modulo 2 ^ 16 — so the stored tempC differs from the
scaled value — and the filter's return code is still determined solely by the
errorWord: no fault code is returned for the narrowing overflow. -/
theorem C9_filter_narrowing_unguarded (g : SysState) (i o : AirData_t)
    (h : 65535 < truncScale i.tempC) :
    ((filterAirData g i o).2.1.tempC = truncScale i.tempC % 2 ^ 16) ∧
      (filterAirData g i o).2.1.tempC ≠ truncScale i.tempC ∧
      ((filterAirData g i o).2.2 = FAULT_AIRFILTER ↔ i.errorWord ≠ 0) ∧
      (i.errorWord = 0 → (filterAirData g i o).2.2 = FAULT_NONE) := by
  have h1 : (filterAirData g i o).2.1.tempC = truncScale i.tempC % 2 ^ 16 := by
    simp [filterAirData, truncScale_eq]
  refine ⟨h1, ?_, ?_, ?_⟩
  · rw [h1]
    have hm : truncScale i.tempC % 2 ^ 16 < 2 ^ 16 := Nat.mod_lt _ (by norm_num)
    have he : (2 : Nat) ^ 16 = 65536 := by norm_num
    omega
  · by_cases he : i.errorWord = 0 <;> simp [filterAirData, he, FAULT_AIRFILTER]
  · intro he
    simp [filterAirData, he, FAULT_NONE]

/-- Witness for C9 at raw tempC 65535: the scaled value 65747 exceeds 65535,
the stored tempC is 65747 reduced modulo 2 ^ 16, i.e. 211, and the return
code is 0. -/
theorem C9_filter_narrowing_unguarded_witness :
    65535 < truncScale 65535 ∧
      (filterAirData ⟨⟨0, 0, 0⟩, 1⟩ ⟨0, 65535, 5⟩ ⟨9, 9, 9⟩).2.1.tempC =
        truncScale 65535 % 2 ^ 16 ∧
      (filterAirData ⟨⟨0, 0, 0⟩, 1⟩ ⟨0, 65535, 5⟩ ⟨9, 9, 9⟩).2.2 = FAULT_NONE ∧
      truncScale 65535 % 2 ^ 16 = 211 := by
  have hb : 65535 < truncScale 65535 := by
    rw [truncScale_eq]
    norm_num
  refine ⟨hb, ?_, ?_, ?_⟩
  · exact (C9_filter_narrowing_unguarded ⟨⟨0, 0, 0⟩, 1⟩ ⟨0, 65535, 5⟩ ⟨9, 9, 9⟩ hb).1
  · exact (C9_filter_narrowing_unguarded ⟨⟨0, 0, 0⟩, 1⟩ ⟨0, 65535, 5⟩ ⟨9, 9, 9⟩ hb).2.2.2 rfl
  · rw [truncScale_eq]
    norm_num

/-- Claim C6: an invocation of the periodic sampler while the previous sample
is still marked available (AirDataProcessed not 1) reports FAULT_OVERRUN
exactly once; a non-overrun invocation reports nothing; and every invocation
overwrites all three RawSample fields with the trigger's values
(last-writer-wins, no queueing — the sampler never fails fatally and samples
again on the next period). -/
theorem C6_sampler_overrun (s : SysState) (p8 p16 p32 : Nat) :
    (s.AirDataProcessed ≠ 1 → (Tick_10ms s p8 p16 p32).2 = [FAULT_OVERRUN]) ∧
      (s.AirDataProcessed = 1 → (Tick_10ms s p8 p16 p32).2 = []) ∧
      (Tick_10ms s p8 p16 p32).1.RawAirData =
        ⟨p8 % 2 ^ 8, p16 % 2 ^ 16, p32 % 2 ^ 32⟩ := by
  by_cases h : s.AirDataProcessed = 1 <;>
    simp [Tick_10ms, Tick_10ms_trace, applyTrace, applyEv, h]

/-- Witness for C6 at an overrun invocation (flag 0, trigger 3, 4, 5). -/
theorem C6_sampler_overrun_witness :
    ((⟨⟨0, 0, 0⟩, 0⟩ : SysState).AirDataProcessed ≠ 1) ∧
      (Tick_10ms ⟨⟨0, 0, 0⟩, 0⟩ 3 4 5).2 = [FAULT_OVERRUN] ∧
      (Tick_10ms ⟨⟨0, 0, 0⟩, 0⟩ 3 4 5).1.RawAirData = ⟨3, 4, 5⟩ := by
  refine ⟨by decide, (C6_sampler_overrun ⟨⟨0, 0, 0⟩, 0⟩ 3 4 5).1 (by decide), ?_⟩
  exact ((C6_sampler_overrun ⟨⟨0, 0, 0⟩, 0⟩ 3 4 5).2.2).trans (by decide)

/-- Claim C7 as stated is false at a concrete no-overrun invocation: with
AirDataProcessed = 1 and trigger values 0, 0, 0 the sampler's event trace
stores 0 to the flag (marks the sample available) as its first action, so
the flag write is not preceded by the three RawSample field writes. -/
theorem C7_counterexample :
    availAfterAllFields (Tick_10ms_trace 1 0 0 0) = false ∧
      Tick_10ms_trace 1 0 0 0 =
        [Ev.setFlag 0, Ev.wErrorWord 0, Ev.wTempC 0, Ev.wSpeed 0] := by
  decide

/-- Claim C7 amended: on every no-overrun invocation the sampler sets
SampleAvailable (stores 0 to AirDataProcessed) before returning, but it does
so before writing the three RawSample fields, not after; by the time it
returns, all three fields hold the trigger's values, the flag is 0 and no
fault is reported. -/
theorem C7_flag_set_before_fields (s : SysState) (p8 p16 p32 : Nat)
    (h : s.AirDataProcessed = 1) :
    Tick_10ms_trace s.AirDataProcessed p8 p16 p32 =
      [Ev.setFlag 0, Ev.wErrorWord (p8 % 2 ^ 8), Ev.wTempC (p16 % 2 ^ 16),
        Ev.wSpeed (p32 % 2 ^ 32)] ∧
      (Tick_10ms s p8 p16 p32).1.AirDataProcessed = 0 ∧
      (Tick_10ms s p8 p16 p32).1.RawAirData = ⟨p8 % 2 ^ 8, p16 % 2 ^ 16, p32 % 2 ^ 32⟩ ∧
      (Tick_10ms s p8 p16 p32).2 = [] := by
  simp [Tick_10ms, Tick_10ms_trace, applyTrace, applyEv, h]

/-- Witness for the amended C7 at a consumed-flag invocation. -/
theorem C7_flag_set_before_fields_witness :
    ((⟨⟨7, 7, 7⟩, 1⟩ : SysState).AirDataProcessed = 1) ∧
      Tick_10ms_trace (⟨⟨7, 7, 7⟩, 1⟩ : SysState).AirDataProcessed 3 4 5 =
        [Ev.setFlag 0, Ev.wErrorWord 3, Ev.wTempC 4, Ev.wSpeed 5] ∧
      (Tick_10ms ⟨⟨7, 7, 7⟩, 1⟩ 3 4 5).1.AirDataProcessed = 0 := by
  refine ⟨rfl, ?_, ?_⟩
  · exact ((C7_flag_set_before_fields ⟨⟨7, 7, 7⟩, 1⟩ 3 4 5 rfl).1).trans (by decide)
  · exact (C7_flag_set_before_fields ⟨⟨7, 7, 7⟩, 1⟩ 3 4 5 rfl).2.1

/-- Claim C8: calling the filter twice in succession on the same unmodified
raw sample, with the availability flag not re-set between the calls, produces
the same filtered sample and the same return code both times, and neither
call modifies the raw sample. -/
theorem C8_filter_deterministic (g : SysState) (o : AirData_t) :
    (filterAirData (filterAirData g g.RawAirData o).1
          (filterAirData g g.RawAirData o).1.RawAirData
          (filterAirData g g.RawAirData o).2.1).2.1 =
        (filterAirData g g.RawAirData o).2.1 ∧
      (filterAirData (filterAirData g g.RawAirData o).1
          (filterAirData g g.RawAirData o).1.RawAirData
          (filterAirData g g.RawAirData o).2.1).2.2 =
        (filterAirData g g.RawAirData o).2.2 ∧
      (filterAirData g g.RawAirData o).1.RawAirData = g.RawAirData := by
  exact ⟨rfl, rfl, rfl⟩

/-- Claim C10: every filter call stores 1 to AirDataProcessed (marks the
shared sample consumed) unconditionally — the conjunction holds for every
input sample, so in particular for samples with nonzero errorWord where the
filter returns FAULT_AIRFILTER — and therefore a sampler invocation right
after a filter call never reports an overrun. -/
theorem C10_filter_marks_consumed (g : SysState) (i o : AirData_t) (p8 p16 p32 : Nat) :
    (filterAirData g i o).1.AirDataProcessed = 1 ∧
      (Tick_10ms (filterAirData g i o).1 p8 p16 p32).2 = [] := by
  refine ⟨rfl, ?_⟩
  simp [Tick_10ms, Tick_10ms_trace, applyTrace, applyEv, filterAirData]

/-- Helper: the streak counter after one iteration run on a state whose raw
sample was just replaced by r. -/
theorem state_count_after (s : LoopState) (r : AirData_t) :
    (loopIter { s with g := { s.g with RawAirData := r } }).1.FilterErrorCount =
      if r.errorWord ≠ 0 then s.FilterErrorCount + 1 else 0 := by
  rw [loopIter_count]

/-- Helper: over any sequence of raw samples, the loop's FAULT_AIRFILTER
reports are exactly those of the debounce policy applied to the streak
counter and the raw errorWord sequence. -/
theorem runLoop_count_spec (rs : List AirData_t) (s : LoopState) :
    (runLoop s rs).2.count FAULT_AIRFILTER =
      debounceFaults s.FilterErrorCount (rs.map fun r => r.errorWord) := by
  induction rs generalizing s with
  | nil => simp [runLoop, debounceFaults]
  | cons r rs ih =>
    rw [runLoop_count_step, ih, state_count_after, List.map_cons]
    by_cases h : r.errorWord = 0
    · simp [debounceFaults, h]
    · simp [debounceFaults, h]

/-- Claim C1: starting from a streak counter of 0, five consecutive
filter-error iterations followed by one success never report FAULT_AIRFILTER;
six consecutive filter-error iterations report FAULT_AIRFILTER exactly once,
and it happens on the sixth iteration (the first five iterations report
none); and every iteration increments the streak counter on a filter error
and resets it to 0 on a filter success. -/
theorem C1_debounce_policy :
    (∀ (s : LoopState) (r1 r2 r3 r4 r5 r6 : AirData_t),
        s.FilterErrorCount = 0 →
        r1.errorWord ≠ 0 → r2.errorWord ≠ 0 → r3.errorWord ≠ 0 →
        r4.errorWord ≠ 0 → r5.errorWord ≠ 0 → r6.errorWord = 0 →
        (runLoop s [r1, r2, r3, r4, r5, r6]).2.count FAULT_AIRFILTER = 0) ∧
      (∀ (s : LoopState) (r1 r2 r3 r4 r5 r6 : AirData_t),
        s.FilterErrorCount = 0 →
        r1.errorWord ≠ 0 → r2.errorWord ≠ 0 → r3.errorWord ≠ 0 →
        r4.errorWord ≠ 0 → r5.errorWord ≠ 0 → r6.errorWord ≠ 0 →
        (runLoop s [r1, r2, r3, r4, r5]).2.count FAULT_AIRFILTER = 0 ∧
          (runLoop s [r1, r2, r3, r4, r5, r6]).2.count FAULT_AIRFILTER = 1) ∧
      (∀ s : LoopState,
        (loopIter s).1.FilterErrorCount =
          if s.g.RawAirData.errorWord ≠ 0 then s.FilterErrorCount + 1 else 0) := by
  refine ⟨?_, ?_, fun s => loopIter_count s⟩
  · intro s r1 r2 r3 r4 r5 r6 h0 h1 h2 h3 h4 h5 h6
    rw [runLoop_count_spec, h0]
    simp [debounceFaults, h1, h2, h3, h4, h5, h6]
  · intro s r1 r2 r3 r4 r5 r6 h0 h1 h2 h3 h4 h5 h6
    constructor
    · rw [runLoop_count_spec, h0]
      simp [debounceFaults, h1, h2, h3, h4, h5]
    · rw [runLoop_count_spec, h0]
      simp [debounceFaults, h1, h2, h3, h4, h5, h6]

/-- Witness for C1: from main's initial state, five bad samples then one good
sample give zero FAULT_AIRFILTER reports; five bad samples give zero; six bad
samples give exactly one. -/
theorem C1_debounce_policy_witness :
    ((⟨1, 10, 10⟩ : AirData_t).errorWord ≠ 0) ∧
      ((⟨0, 10, 10⟩ : AirData_t).errorWord = 0) ∧
      ((⟨⟨⟨1, 1000, 100000⟩, 1⟩, ⟨0, 0, 0⟩, ⟨1, 1000, 1000000⟩, 0⟩ :
          LoopState).FilterErrorCount = 0) ∧
      (runLoop ⟨⟨⟨1, 1000, 100000⟩, 1⟩, ⟨0, 0, 0⟩, ⟨1, 1000, 1000000⟩, 0⟩
          [⟨1, 10, 10⟩, ⟨1, 10, 10⟩, ⟨1, 10, 10⟩, ⟨1, 10, 10⟩, ⟨1, 10, 10⟩,
            ⟨0, 10, 10⟩]).2.count FAULT_AIRFILTER = 0 ∧
      (runLoop ⟨⟨⟨1, 1000, 100000⟩, 1⟩, ⟨0, 0, 0⟩, ⟨1, 1000, 1000000⟩, 0⟩
          [⟨1, 10, 10⟩, ⟨1, 10, 10⟩, ⟨1, 10, 10⟩, ⟨1, 10, 10⟩,
            ⟨1, 10, 10⟩]).2.count FAULT_AIRFILTER = 0 ∧
      (runLoop ⟨⟨⟨1, 1000, 100000⟩, 1⟩, ⟨0, 0, 0⟩, ⟨1, 1000, 1000000⟩, 0⟩
          [⟨1, 10, 10⟩, ⟨1, 10, 10⟩, ⟨1, 10, 10⟩, ⟨1, 10, 10⟩, ⟨1, 10, 10⟩,
            ⟨1, 10, 10⟩]).2.count FAULT_AIRFILTER = 1 := by
  refine ⟨by decide, by decide, rfl, ?_, ?_, ?_⟩
  · exact C1_debounce_policy.1 ⟨⟨⟨1, 1000, 100000⟩, 1⟩, ⟨0, 0, 0⟩, ⟨1, 1000, 1000000⟩, 0⟩
      ⟨1, 10, 10⟩ ⟨1, 10, 10⟩ ⟨1, 10, 10⟩ ⟨1, 10, 10⟩ ⟨1, 10, 10⟩ ⟨0, 10, 10⟩
      rfl (by decide) (by decide) (by decide) (by decide) (by decide) rfl
  · exact (C1_debounce_policy.2.1 ⟨⟨⟨1, 1000, 100000⟩, 1⟩, ⟨0, 0, 0⟩, ⟨1, 1000, 1000000⟩, 0⟩
      ⟨1, 10, 10⟩ ⟨1, 10, 10⟩ ⟨1, 10, 10⟩ ⟨1, 10, 10⟩ ⟨1, 10, 10⟩ ⟨1, 10, 10⟩
      rfl (by decide) (by decide) (by decide) (by decide) (by decide) (by decide)).1
  · exact (C1_debounce_policy.2.1 ⟨⟨⟨1, 1000, 100000⟩, 1⟩, ⟨0, 0, 0⟩, ⟨1, 1000, 1000000⟩, 0⟩
      ⟨1, 10, 10⟩ ⟨1, 10, 10⟩ ⟨1, 10, 10⟩ ⟨1, 10, 10⟩ ⟨1, 10, 10⟩ ⟨1, 10, 10⟩
      rfl (by decide) (by decide) (by decide) (by decide) (by decide) (by decide)).2

end LiliumTest
